import Mathlib

set_option autoImplicit false

/-!
Verification of `dfvfs/helpers/volume_scanner.py` (class `VolumeScanner` and
its mediator protocol).

The embedding translates the volume scanner's data model and control flow
into Lean.  Collaborators of the scanner that live outside the sources under
verification (the source scanner, volume-system backends, the credentials
manager and the file-system resolver) are modelled as explicit data passed
in through a `ScanEnvironment` record, following the interface description
of the specification (sections 3, 4.2 and 6).  Python exceptions are
modelled with `Except`: `ScannerError` and `UserAbort` are the two error
kinds of the module's taxonomy, while `typeError` stands for an unclassified
Python `TypeError` (such as iterating over `None`).
-/

namespace DFVFS

/-- Type indicators (`dfvfs.lib.definitions`).  Only the indicators the
scanner dispatches on are named; `other` covers the remaining ones. -/
inductive TypeIndicator where
  | apfsContainer
  | tsk
  | tskPartition
  | vshadow
  | os
  | other (name : String)
  deriving DecidableEq, Repr

/-- Source types (`dfvfs.lib.definitions.SOURCE_TYPE_...`). -/
inductive SourceType where
  | file
  | directory
  | storageMediaDevice
  | storageMediaImage
  deriving DecidableEq, Repr

/-- A path specification: a typed layer with optional `location` parameter
chained to an optional parent layer.  `root` is a path specification whose
`parent` is `None`; `child` carries its parent.  This is the structural
(recursive) equality model of the specification, section 3. -/
inductive PathSpec where
  | root (type_indicator : TypeIndicator) (location : Option String)
  | child (type_indicator : TypeIndicator) (location : Option String) (parent : PathSpec)
  deriving DecidableEq, Repr

def PathSpec.type_indicator : PathSpec → TypeIndicator
  | .root t _ => t
  | .child t _ _ => t

def PathSpec.location : PathSpec → Option String
  | .root _ l => l
  | .child _ l _ => l

/-- `path_spec_factory.Factory.NewPathSpec(type, location=..., parent=...)`:
builds a path specification from a type indicator, an optional location and
an optional parent. -/
def NewPathSpec (type_indicator : TypeIndicator) (location : Option String)
    (parent : Option PathSpec) : PathSpec :=
  match parent with
  | none => .root type_indicator location
  | some p => .child type_indicator location p

/-- Modelled from the spec: a scan node of the source scanner's discovery
tree (`SourceScanNode`, which lives in `source_scanner.py`, outside the
sources under verification).  Per section 3 it wraps one path specification,
the ordered list of sub nodes (insertion order is discovery order) and the
derived boolean flags `is_volume_system_root` and `is_file_system`; the
locked state is tracked by the scanner context. -/
inductive ScanNode where
  | mk (path_spec : PathSpec) (is_volume_system_root : Bool)
      (is_file_system : Bool) (sub_nodes : List ScanNode)

def ScanNode.path_spec : ScanNode → PathSpec
  | .mk p _ _ _ => p

def ScanNode.is_volume_system_root : ScanNode → Bool
  | .mk _ v _ _ => v

def ScanNode.is_file_system : ScanNode → Bool
  | .mk _ _ f _ => f

def ScanNode.sub_nodes : ScanNode → List ScanNode
  | .mk _ _ _ s => s

/-- `SourceScanNode.type_indicator` is derived from the node's path
specification. -/
def ScanNode.type_indicator (n : ScanNode) : TypeIndicator :=
  n.path_spec.type_indicator

/-- `SourceScanNode.IsVolumeSystemRoot()`. -/
def ScanNode.IsVolumeSystemRoot (n : ScanNode) : Bool :=
  n.is_volume_system_root

/-- `SourceScanNode.IsFileSystem()`. -/
def ScanNode.IsFileSystem (n : ScanNode) : Bool :=
  n.is_file_system

/-- `SourceScanNode.GetSubNodeByLocation(location)`: the first sub node
whose path specification has the given `location` parameter. -/
def ScanNode.GetSubNodeByLocation (n : ScanNode) (location : String) :
    Option ScanNode :=
  n.sub_nodes.find? (fun sub => sub.path_spec.location == some location)

/-- Modelled from the spec: the abstract volume system collaborator
(section 6): `GetVolumeIdentifiers()` reports the format-native identifiers
and `GetVolumeByIdentifier(identifier)` either finds a volume or not, which
`hasVolume` records. -/
structure VolumeSystem where
  volume_identifiers : List String
  hasVolume : String → Bool

/-- Modelled from the spec: the source scanner context
(`SourceScannerContext`, outside the sources under verification): the root
scan node, the source classification and the set of currently locked path
specifications (section 3). -/
structure SourceScannerContext where
  root_scan_node : ScanNode
  source_type : SourceType
  locked_path_specs : List PathSpec

def SourceScannerContext.GetRootScanNode (ctx : SourceScannerContext) : ScanNode :=
  ctx.root_scan_node

def SourceScannerContext.IsLockedScanNode (ctx : SourceScannerContext)
    (path_spec : PathSpec) : Bool :=
  ctx.locked_path_specs.contains path_spec

/-- A Python value that may be passed as a volume identifier: the source
documents `list[int|str]` for `_NormalizedVolumeIdentifiers`. -/
inductive PyIdent where
  | intV (value : Int)
  | strV (value : String)
  deriving DecidableEq, Repr

/-- Outcome of a blocking mediator selection call: either it returns a value
(`list[str]` or `None`, per the mediator docstrings) or a
`KeyboardInterrupt` is raised while it runs. -/
inductive MediatorReply where
  | returns (selection : Option (List PyIdent))
  | interrupt
  deriving Repr

/-- The `VolumeScannerMediator` capability interface: three selection
methods and the unlock method.  (The source also passes the source scanner
object to `UnlockEncryptedVolume`; it is omitted here since the model's
re-scan effect lives in the environment.) -/
structure VolumeScannerMediator where
  GetAPFSVolumeIdentifiers : VolumeSystem → List String → MediatorReply
  GetPartitionIdentifiers : VolumeSystem → List String → MediatorReply
  GetVSSStoreIdentifiers : VolumeSystem → List String → MediatorReply
  UnlockEncryptedVolume : SourceScannerContext → ScanNode → List String → Bool

/-- The exceptions observable from the scanner: the module's own
`errors.ScannerError` and `errors.UserAbort`, plus `typeError` for an
unclassified Python `TypeError` escaping the module (not part of the dfvfs
error taxonomy). -/
inductive PyError where
  | scannerError (message : String)
  | userAbort (message : String)
  | typeError (message : String)
  deriving DecidableEq, Repr

/-- Modelled from the spec: the collaborators the scanner calls out to,
gathered in one record so the scanner's own logic stays a pure function of
it.  `pathExists` is `os.path.exists`; `openAndScan` is
`SourceScannerContext.OpenSourcePath` plus the initial `SourceScanner.Scan`
(its error is the wrapped `ValueError`/`BackEndError` message);
`openAPFSVolumeSystem`, `openTSKVolumeSystem` and `openVShadowVolumeSystem`
are `VolumeSystem.Open` of the three backends; `GetCredentials` is
`credentials_manager.CredentialsManager.GetCredentials` (the list of
credential kinds); `rescan` is the `SourceScanner.Scan` pass over an
unlocked node's path specification, which updates the context (in
particular its locked set).  The discovery tree is modelled as fully known
in the node values, with the locked set gating whether the scanner may
descend, which matches the observable behavior of the in-place re-scan. -/
structure ScanEnvironment where
  pathExists : String → Bool
  openAndScan : String → Except String SourceScannerContext
  openAPFSVolumeSystem : PathSpec → VolumeSystem
  openTSKVolumeSystem : PathSpec → VolumeSystem
  openVShadowVolumeSystem : PathSpec → VolumeSystem
  GetCredentials : PathSpec → List String
  rescan : SourceScannerContext → PathSpec → SourceScannerContext

/-- The `VolumeScanner` instance state used by the algorithm: the optional
mediator handed to `__init__`. -/
structure VolumeScanner where
  mediator : Option VolumeScannerMediator

/-- Python `str.startswith(pre)`, modelled on the character lists of the
two strings. -/
def pyStartsWith (value pre : String) : Bool :=
  pre.data.isPrefixOf value.data

/-- The whitespace characters Python `int(value, 10)` strips. -/
def pyWhitespace (c : Char) : Bool :=
  c == ' ' || c == '\t' || c == '\n' || c == '\r'

/-- Accumulates the value of a run of decimal digits; any non-digit
character fails the parse. -/
def decimalDigitsToNat (acc : Nat) : List Char → Option Nat
  | [] => some acc
  | c :: rest =>
    if c.isDigit then decimalDigitsToNat (10 * acc + (c.toNat - 48)) rest
    else none

/-- Python `int(value, 10)` on the trimmed character list: an optional sign
followed by at least one decimal digit; `none` models the `ValueError`. -/
def pyIntOfChars : List Char → Option Int
  | [] => none
  | c :: rest =>
    if c = '-' then
      if rest.isEmpty then none
      else (decimalDigitsToNat 0 rest).map (fun n => -(n : Int))
    else if c = '+' then
      if rest.isEmpty then none
      else (decimalDigitsToNat 0 rest).map (fun n => (n : Int))
    else (decimalDigitsToNat 0 (c :: rest)).map (fun n => (n : Int))

/-- Python `int(value, 10)` on a string: optional surrounding whitespace,
an optional sign and at least one decimal digit; `none` models the
`ValueError`. -/
def pyIntOfString (value : String) : Option Int :=
  pyIntOfChars
    (((value.data.dropWhile pyWhitespace).reverse.dropWhile pyWhitespace).reverse)

/-- The per-identifier rewrite step of `_NormalizedVolumeIdentifiers`: an
`int` is formatted with the identifier marker in front; a string not
starting with the marker is parsed as a base-10 integer and, when that
succeeds, formatted the same way, otherwise kept as is; a string already
starting with the marker passes through unchanged. -/
def normalizeVolumeIdentifier (pfx : String) (volume_identifier : PyIdent) : String :=
  match volume_identifier with
  | .intV value => pfx ++ toString value
  | .strV value =>
    if pyStartsWith value pfx then value
    else
      match pyIntOfString value with
      | some n => pfx ++ toString n
      | none => value

/-- The loop body of `_NormalizedVolumeIdentifiers`: rewrite each
identifier, then require `GetVolumeByIdentifier` to find a volume for the
rewritten identifier (a `KeyError` is treated as no volume), failing with a
`ScannerError` naming the identifier otherwise. -/
def normalizedVolumeIdentifiersList (volume_system : VolumeSystem) (pfx : String) :
    List PyIdent → Except PyError (List String)
  | [] => .ok []
  | volume_identifier :: rest =>
    let vid := normalizeVolumeIdentifier pfx volume_identifier
    if volume_system.hasVolume vid then
      match normalizedVolumeIdentifiersList volume_system pfx rest with
      | .error e => .error e
      | .ok more => .ok (vid :: more)
    else
      .error (.scannerError ("Volume missing for identifier: " ++ vid ++ "."))

/-- `VolumeScanner._NormalizedVolumeIdentifiers(volume_system,
volume_identifiers, prefix=...)`.  The argument may be `None` when it comes
straight from a mediator selection; iterating it then raises a Python
`TypeError`, modelled by the `typeError` outcome. -/
def _NormalizedVolumeIdentifiers (volume_system : VolumeSystem)
    (volume_identifiers : Option (List PyIdent)) (pfx : String) :
    Except PyError (List String) :=
  match volume_identifiers with
  | none => .error (.typeError "NoneType object is not iterable")
  | some ids => normalizedVolumeIdentifiersList volume_system pfx ids

/-- `VolumeScanner._GetAPFSVolumeIdentifiers(scan_node)`. -/
def _GetAPFSVolumeIdentifiers (env : ScanEnvironment) (self : VolumeScanner)
    (scan_node : Option ScanNode) : Except PyError (List String) :=
  match scan_node with
  | none => .error (.scannerError "Invalid scan node.")
  | some node =>
    let volume_system := env.openAPFSVolumeSystem node.path_spec
    let volume_identifiers := volume_system.volume_identifiers
    if volume_identifiers.isEmpty then .ok []
    else if volume_identifiers.length > 1 then
      match self.mediator with
      | none =>
        .error (.scannerError
          "Unable to proceed. APFS volumes found but no mediator to determine how they should be used.")
      | some mediator =>
        match mediator.GetAPFSVolumeIdentifiers volume_system volume_identifiers with
        | .interrupt => .error (.userAbort "File system scan aborted.")
        | .returns selection =>
          _NormalizedVolumeIdentifiers volume_system selection "apfs"
    else
      _NormalizedVolumeIdentifiers volume_system
        (some (volume_identifiers.map PyIdent.strV)) "apfs"

/-- `VolumeScanner._GetTSKPartitionIdentifiers(scan_node)`.  Note the early
return when exactly one identifier is reported: the identifier list is
returned as reported, without the normalization step. -/
def _GetTSKPartitionIdentifiers (env : ScanEnvironment) (self : VolumeScanner)
    (scan_node : Option ScanNode) : Except PyError (List String) :=
  match scan_node with
  | none => .error (.scannerError "Invalid scan node.")
  | some node =>
    let volume_system := env.openTSKVolumeSystem node.path_spec
    let volume_identifiers := volume_system.volume_identifiers
    if volume_identifiers.isEmpty then .ok []
    else if volume_identifiers.length == 1 then .ok volume_identifiers
    else
      match self.mediator with
      | none =>
        .error (.scannerError
          "Unable to proceed. Partitions found but no mediator to determine how they should be used.")
      | some mediator =>
        match mediator.GetPartitionIdentifiers volume_system volume_identifiers with
        | .interrupt => .error (.userAbort "File system scan aborted.")
        | .returns selection =>
          _NormalizedVolumeIdentifiers volume_system selection "p"

/-- `VolumeScanner._GetVSSStoreIdentifiers(scan_node)`.  Unlike the
partition case there is no single-identifier shortcut: any non-empty
identifier list requires the mediator. -/
def _GetVSSStoreIdentifiers (env : ScanEnvironment) (self : VolumeScanner)
    (scan_node : Option ScanNode) : Except PyError (List String) :=
  match scan_node with
  | none => .error (.scannerError "Invalid scan node.")
  | some node =>
    let volume_system := env.openVShadowVolumeSystem node.path_spec
    let volume_identifiers := volume_system.volume_identifiers
    if volume_identifiers.isEmpty then .ok []
    else
      match self.mediator with
      | none =>
        .error (.scannerError
          "Unable to proceed. VSS stores found but no mediator to determine how they should be used.")
      | some mediator =>
        match mediator.GetVSSStoreIdentifiers volume_system volume_identifiers with
        | .interrupt => .error (.userAbort "File system scan aborted.")
        | .returns selection =>
          _NormalizedVolumeIdentifiers volume_system selection "vss"

/-- `VolumeScanner._ScanEncryptedVolume(scan_context, scan_node)`: fetch the
credential kinds, require some to exist and a mediator to be present, ask
the mediator to unlock and, on success, re-run the source scanner over the
node's path specification (which updates the context, in particular its
locked set).  The invalid-node guard of the source is subsumed by the
caller's, which has already dereferenced the node. -/
def _ScanEncryptedVolume (env : ScanEnvironment) (self : VolumeScanner)
    (scan_context : SourceScannerContext) (scan_node : ScanNode) :
    Except PyError SourceScannerContext :=
  let credentials := env.GetCredentials scan_node.path_spec
  if credentials.isEmpty then
    .error (.scannerError "Missing credentials for scan node.")
  else
    match self.mediator with
    | none =>
      .error (.scannerError
        "Unable to proceed. Encrypted volume found but no mediator to determine how it should be unlocked.")
    | some mediator =>
      if mediator.UnlockEncryptedVolume scan_context scan_node credentials then
        .ok (env.rescan scan_context scan_node.path_spec)
      else
        .ok scan_context

/-- `VolumeScanner._ScanFileSystem(scan_node, base_path_specs)`: appends the
node's path specification (returned here as the contributed list). -/
def _ScanFileSystem (scan_node : Option ScanNode) : Except PyError (List PathSpec) :=
  match scan_node with
  | none => .error (.scannerError "Invalid or missing file system scan node.")
  | some node => .ok [node.path_spec]

/-- Lines 333 to 339 of `_ScanVolume`: if the node is locked, run
`_ScanEncryptedVolume` and re-check the lock; `ok none` is the still-locked
early return, `ok (some ctx)` continues with the (possibly re-scanned)
context. -/
def scanVolumeUnlockStep (env : ScanEnvironment) (self : VolumeScanner)
    (scan_context : SourceScannerContext) (scan_node : ScanNode) :
    Except PyError (Option SourceScannerContext) :=
  if scan_context.IsLockedScanNode scan_node.path_spec then
    match _ScanEncryptedVolume env self scan_context scan_node with
    | .error e => .error e
    | .ok ctx2 =>
      if ctx2.IsLockedScanNode scan_node.path_spec then .ok none
      else .ok (some ctx2)
  else .ok (some scan_context)

theorem ScanNode.sizeOf_sub_nodes_lt (n : ScanNode) : sizeOf n.sub_nodes < sizeOf n := by
  cases' n with p v f s
  simp [ScanNode.sub_nodes]

theorem sizeOf_scanNode_list_pos (ns : List ScanNode) : 0 < sizeOf ns := by
  cases ns <;> simp_arith

theorem ScanNode.sizeOf_lt_of_getSubNode (n m : ScanNode) (loc : String)
    (h : n.GetSubNodeByLocation loc = some m) : sizeOf m + 1 < sizeOf n := by
  have h1 : m ∈ n.sub_nodes := List.mem_of_find?_eq_some h
  have h2 : sizeOf m < sizeOf n.sub_nodes := List.sizeOf_lt_of_mem h1
  have h3 := ScanNode.sizeOf_sub_nodes_lt n
  omega

mutual

/-- `VolumeScanner._ScanVolume(scan_context, scan_node, base_path_specs)`.
The mutable accumulator of the source is rendered as the returned list of
contributed path specifications (concatenated by the callers), per the
equivalence noted in section 9 of the specification. -/
def _ScanVolume (env : ScanEnvironment) (self : VolumeScanner)
    (scan_context : SourceScannerContext) (scan_node : Option ScanNode) :
    Except PyError (List PathSpec) :=
  match scan_node with
  | none => .error (.scannerError "Invalid or missing scan node.")
  | some node =>
    match scanVolumeUnlockStep env self scan_context node with
    | .error e => .error e
    | .ok none => .ok []
    | .ok (some ctx2) =>
      if node.IsVolumeSystemRoot then
        _ScanVolumeSystemRoot env self ctx2 node
      else if node.IsFileSystem then
        _ScanFileSystem (some node)
      else if node.type_indicator = TypeIndicator.vshadow then
        .ok [NewPathSpec TypeIndicator.tsk (some "/") (some node.path_spec)]
      else
        scanSubNodes env self ctx2 node.sub_nodes
termination_by (sizeOf scan_node, 1, 0)
decreasing_by
  · apply Prod.Lex.left
    have hs : sizeOf (some node) = 1 + sizeOf node := rfl
    omega
  · apply Prod.Lex.left
    have hs : sizeOf (some node) = 1 + sizeOf node := rfl
    have := ScanNode.sizeOf_sub_nodes_lt node
    omega

/-- `VolumeScanner._ScanVolumeSystemRoot(scan_context, scan_node,
base_path_specs)`: dispatch on the volume system type, determine the
identifiers (the VSS store identifiers are reversed after selection, so the
most recent snapshot is processed first), then recurse into the sub node at
location `/` plus identifier for each identifier in turn.  The source
interpolates the type indicator into the unsupported-type message. -/
def _ScanVolumeSystemRoot (env : ScanEnvironment) (self : VolumeScanner)
    (scan_context : SourceScannerContext) (scan_node : ScanNode) :
    Except PyError (List PathSpec) :=
  match
    (if scan_node.type_indicator = TypeIndicator.apfsContainer then
      _GetAPFSVolumeIdentifiers env self (some scan_node)
    else if scan_node.type_indicator = TypeIndicator.vshadow then
      match _GetVSSStoreIdentifiers env self (some scan_node) with
      | .error e => .error e
      | .ok ids => .ok ids.reverse
    else
      .error (.scannerError "Unsupported volume system type.")) with
  | .error e => .error e
  | .ok volume_identifiers =>
    scanVolumeSystemRootLoop env self scan_context scan_node volume_identifiers
termination_by (sizeOf scan_node, 2, 0)
decreasing_by
  apply Prod.Lex.right
  apply Prod.Lex.left
  omega

/-- The `for volume_identifier in volume_identifiers` loop of
`_ScanVolumeSystemRoot`: look up the sub node at `/` plus identifier,
failing with a `ScannerError` naming the identifier when it is missing, and
recurse into it. -/
def scanVolumeSystemRootLoop (env : ScanEnvironment) (self : VolumeScanner)
    (scan_context : SourceScannerContext) (scan_node : ScanNode)
    (volume_identifiers : List String) : Except PyError (List PathSpec) :=
  match volume_identifiers with
  | [] => .ok []
  | volume_identifier :: rest =>
    match h : scan_node.GetSubNodeByLocation ("/" ++ volume_identifier) with
    | none =>
      .error (.scannerError
        ("Scan node missing for volume identifier: " ++ volume_identifier ++ "."))
    | some sub_scan_node =>
      match _ScanVolume env self scan_context (some sub_scan_node) with
      | .error e => .error e
      | .ok specs =>
        match scanVolumeSystemRootLoop env self scan_context scan_node rest with
        | .error e => .error e
        | .ok more => .ok (specs ++ more)
termination_by (sizeOf scan_node, 0, sizeOf volume_identifiers)
decreasing_by
  · apply Prod.Lex.left
    have hs : sizeOf (some sub_scan_node) = 1 + sizeOf sub_scan_node := rfl
    have := ScanNode.sizeOf_lt_of_getSubNode scan_node sub_scan_node
      ("/" ++ volume_identifier) h
    omega
  · apply Prod.Lex.right
    apply Prod.Lex.right
    have hs : sizeOf (volume_identifier :: rest) =
        1 + sizeOf volume_identifier + sizeOf rest := rfl
    have hp : 0 < sizeOf volume_identifier := by
      cases volume_identifier
      simp_arith
    omega

/-- The `for sub_scan_node in scan_node.sub_nodes` loop of `_ScanVolume`
(the fall-through branch for an unclassified intermediate container). -/
def scanSubNodes (env : ScanEnvironment) (self : VolumeScanner)
    (scan_context : SourceScannerContext) (nodes : List ScanNode) :
    Except PyError (List PathSpec) :=
  match nodes with
  | [] => .ok []
  | n :: rest =>
    match _ScanVolume env self scan_context (some n) with
    | .error e => .error e
    | .ok specs =>
      match scanSubNodes env self scan_context rest with
      | .error e => .error e
      | .ok more => .ok (specs ++ more)
termination_by (sizeOf nodes, 0, 0)
decreasing_by
  · apply Prod.Lex.left
    have hs : sizeOf (some n) = 1 + sizeOf n := rfl
    have hc : sizeOf (n :: rest) = 1 + sizeOf n + sizeOf rest := rfl
    have := sizeOf_scanNode_list_pos rest
    omega
  · apply Prod.Lex.left
    have hc : sizeOf (n :: rest) = 1 + sizeOf n + sizeOf rest := rfl
    have := sizeOf_scanNode_list_pos rest
    omega

end

/-- The `while len(scan_node.sub_nodes) == 1` descent of
`GetBasePathSpecs`: skip the chain of single-child wrapper nodes down to
the first branching or childless node. -/
def descendSingleSubNodeChain (scan_node : ScanNode) : ScanNode :=
  match h : scan_node.sub_nodes with
  | [sub] => descendSingleSubNodeChain sub
  | _ => scan_node
termination_by sizeOf scan_node
decreasing_by
  have h1 := ScanNode.sizeOf_sub_nodes_lt scan_node
  rw [h] at h1
  have h2 : sizeOf [sub] = 1 + sizeOf sub + 1 := rfl
  omega

/-- The `for partition_identifier in partition_identifiers` loop of
`GetBasePathSpecs`: the sub node lookup result is handed to `_ScanVolume`
without a missing-child check (a missing child fails inside `_ScanVolume`
with its invalid-node error). -/
def scanPartitionsLoop (env : ScanEnvironment) (self : VolumeScanner)
    (scan_context : SourceScannerContext) (scan_node : ScanNode) :
    List String → Except PyError (List PathSpec)
  | [] => .ok []
  | partition_identifier :: rest =>
    let sub_scan_node := scan_node.GetSubNodeByLocation ("/" ++ partition_identifier)
    match _ScanVolume env self scan_context sub_scan_node with
    | .error e => .error e
    | .ok specs =>
      match scanPartitionsLoop env self scan_context scan_node rest with
      | .error e => .error e
      | .ok more => .ok (specs ++ more)

/-- `VolumeScanner.GetBasePathSpecs(source_path)`: validate the source path
(Windows device paths, starting with two backslashes, a dot and a
backslash, are exempt from the existence check), open and scan the source
(wrapping a backend failure into a `ScannerError`), return the root node's
path specification alone for a source that is not a storage media device
or image, otherwise descend the single-child chain and dispatch on whether
the decision node is a partition table. -/
def GetBasePathSpecs (env : ScanEnvironment) (self : VolumeScanner)
    (source_path : String) : Except PyError (List PathSpec) :=
  if source_path = "" then .error (.scannerError "Invalid source path.")
  else if !pyStartsWith source_path "\\\\.\\" && !env.pathExists source_path then
    .error (.scannerError
      ("No such device, file or directory: " ++ source_path ++ "."))
  else
    match env.openAndScan source_path with
    | .error message =>
      .error (.scannerError ("Unable to scan source with error: " ++ message))
    | .ok scan_context =>
      if scan_context.source_type ≠ SourceType.storageMediaDevice ∧
          scan_context.source_type ≠ SourceType.storageMediaImage then
        .ok [scan_context.GetRootScanNode.path_spec]
      else
        let scan_node := descendSingleSubNodeChain scan_context.GetRootScanNode
        if scan_node.type_indicator ≠ TypeIndicator.tskPartition then
          _ScanVolume env self scan_context (some scan_node)
        else
          match _GetTSKPartitionIdentifiers env self (some scan_node) with
          | .error e => .error e
          | .ok partition_identifiers =>
            scanPartitionsLoop env self scan_context scan_node partition_identifiers

/-! ## Concrete fixtures used by witnesses and counterexamples -/

/-- A volume system with no volumes at all. -/
def emptyVS : VolumeSystem :=
  { volume_identifiers := [], hasVolume := fun _ => false }

/-- A neutral environment; individual fixtures override single fields. -/
def baseEnv : ScanEnvironment :=
  { pathExists := fun _ => true
    openAndScan := fun _ => .error "not scanned"
    openAPFSVolumeSystem := fun _ => emptyVS
    openTSKVolumeSystem := fun _ => emptyVS
    openVShadowVolumeSystem := fun _ => emptyVS
    GetCredentials := fun _ => []
    rescan := fun ctx _ => ctx }

/-- A scanner configured without a mediator. -/
def noMediatorScanner : VolumeScanner := { mediator := none }

/-- A scan node whose path specification carries no special type; the
identifier functions never inspect the node beyond its path
specification. -/
def nodeAny : ScanNode :=
  .mk (.root (.other "test") none) false false []

/-! ## C7 -/

/-- C7: volume-identifier normalization is idempotent: an identifier already
bearing the identifier marker passes through unchanged, so normalizing an
already-normalized identifier list, all of whose identifiers resolve to
volumes present in the volume system, returns the list unchanged; a bare
integer `2` with marker `p` normalizes to `p2`, a bare numeral string `2`
normalizes to `p2` as well — in general any string that does not start
with the marker and parses as a base-10 integer is rewritten to the marker
followed by that integer — and `p2` stays `p2`. -/
theorem C7_normalization_idempotent :
    (∀ (vs : VolumeSystem) (pfx : String) (ids : List String),
        (∀ s ∈ ids, pyStartsWith s pfx = true ∧ vs.hasVolume s = true) →
        _NormalizedVolumeIdentifiers vs (some (ids.map PyIdent.strV)) pfx = .ok ids) ∧
    (∀ vs : VolumeSystem, vs.hasVolume "p2" = true →
        _NormalizedVolumeIdentifiers vs (some [PyIdent.intV 2]) "p" = .ok ["p2"]) ∧
    (∀ vs : VolumeSystem, vs.hasVolume "p2" = true →
        _NormalizedVolumeIdentifiers vs (some [PyIdent.strV "2"]) "p" = .ok ["p2"]) ∧
    (∀ (pfx s : String) (n : Int),
        pyStartsWith s pfx = false →
        pyIntOfString s = some n →
        normalizeVolumeIdentifier pfx (PyIdent.strV s) = pfx ++ toString n) ∧
    (∀ vs : VolumeSystem, vs.hasVolume "p2" = true →
        _NormalizedVolumeIdentifiers vs (some [PyIdent.strV "p2"]) "p" = .ok ["p2"]) := by
  refine ⟨?_, ?_, ?_, ?_, ?_⟩
  · intro vs pfx ids h
    simp only [_NormalizedVolumeIdentifiers]
    induction ids with
    | nil => simp [normalizedVolumeIdentifiersList]
    | cons a rest ih =>
      obtain ⟨ha1, ha2⟩ := h a (by simp)
      have hn : normalizeVolumeIdentifier pfx (PyIdent.strV a) = a := by
        simp [normalizeVolumeIdentifier, ha1]
      have ih2 := ih (fun s hs => h s (by simp [hs]))
      simp [normalizedVolumeIdentifiersList, hn, ha2, ih2]
  · intro vs h
    have hn : normalizeVolumeIdentifier "p" (PyIdent.intV 2) = "p2" := by decide
    simp [_NormalizedVolumeIdentifiers, normalizedVolumeIdentifiersList, hn, h]
  · intro vs h
    have hn : normalizeVolumeIdentifier "p" (PyIdent.strV "2") = "p2" := by decide
    simp [_NormalizedVolumeIdentifiers, normalizedVolumeIdentifiersList, hn, h]
  · intro pfx s n h1 h2
    simp [normalizeVolumeIdentifier, h1, h2]
  · intro vs h
    have hn : normalizeVolumeIdentifier "p" (PyIdent.strV "p2") = "p2" := by decide
    simp [_NormalizedVolumeIdentifiers, normalizedVolumeIdentifiersList, hn, h]

/-- The volume system used by the C7 witness: a single volume `p2`. -/
def vsC7 : VolumeSystem :=
  { volume_identifiers := ["p2"], hasVolume := fun s => s == "p2" }

theorem helperIsEmptyFalseOfNe {α : Type} (l : List α) (h : l ≠ []) :
    l.isEmpty = false := by
  cases l with
  | nil => exact absurd rfl h
  | cons a t => rfl

theorem helperBeqOneFalseOfLt (n : Nat) (h : 1 < n) : (n == 1) = false := by
  simp only [beq_eq_false_iff_ne]
  omega

theorem helperNeNilOfLtLength {α : Type} (l : List α) (h : 1 < l.length) :
    l ≠ [] := by
  cases l with
  | nil => simp at h
  | cons a t => simp

/-- Witness for C7 at the volume system `vsC7`, covering the prefixed
pass-through, the bare integer, the bare numeral string and the general
parse rewrite. -/
theorem C7_normalization_idempotent_witness :
    _NormalizedVolumeIdentifiers vsC7 (some (["p2"].map PyIdent.strV)) "p" = .ok ["p2"] ∧
    _NormalizedVolumeIdentifiers vsC7 (some [PyIdent.intV 2]) "p" = .ok ["p2"] ∧
    _NormalizedVolumeIdentifiers vsC7 (some [PyIdent.strV "2"]) "p" = .ok ["p2"] ∧
    normalizeVolumeIdentifier "p" (PyIdent.strV "2") = "p" ++ toString (2 : Int) ∧
    _NormalizedVolumeIdentifiers vsC7 (some [PyIdent.strV "p2"]) "p" = .ok ["p2"] :=
  ⟨C7_normalization_idempotent.1 vsC7 "p" ["p2"] (by decide),
   C7_normalization_idempotent.2.1 vsC7 (by decide),
   C7_normalization_idempotent.2.2.1 vsC7 (by decide),
   C7_normalization_idempotent.2.2.2.1 "p" "2" 2 (by decide) (by decide),
   C7_normalization_idempotent.2.2.2.2 vsC7 (by decide)⟩

/-! ## C2 -/

/-- A TSK volume system reporting one native identifier `2` while
`GetVolumeByIdentifier` finds no volume for any identifier. -/
def vsC2 : VolumeSystem :=
  { volume_identifiers := ["2"], hasVolume := fun _ => false }

def envC2 : ScanEnvironment :=
  { baseEnv with openTSKVolumeSystem := fun _ => vsC2 }

def nodeC2 : ScanNode :=
  .mk (.root .tskPartition (some "/")) false false []

/-- C2 counterexample: when the TSK volume system reports exactly one
identifier, `_GetTSKPartitionIdentifiers` auto-selects and returns it as
reported — here the bare numeral `2`, not the normalized `p2` — even though
the identifier resolves to no volume in the volume system, and no scan
error is raised; the normalization step, had it run on this selection,
would have failed naming `p2`. -/
theorem C2_counterexample :
    _GetTSKPartitionIdentifiers envC2 noMediatorScanner (some nodeC2) = .ok ["2"] ∧
    (envC2.openTSKVolumeSystem nodeC2.path_spec).hasVolume "2" = false ∧
    (envC2.openTSKVolumeSystem nodeC2.path_spec).hasVolume "p2" = false ∧
    _NormalizedVolumeIdentifiers (envC2.openTSKVolumeSystem nodeC2.path_spec)
        (some [PyIdent.strV "2"]) "p" =
      .error (.scannerError "Volume missing for identifier: p2.") :=
  ⟨rfl, rfl, rfl, rfl⟩

/-- C2 (amended): identifiers that reach `_NormalizedVolumeIdentifiers` —
every mediator selection for partitions, APFS volumes and shadow stores,
and the auto-selected single APFS volume (sixth conjunct) — are normalized
against the opened volume system, and a selected identifier that resolves
to no volume raises a fatal scan error naming that identifier; the
auto-selected single partition identifier, however, is returned as
reported, bypassing normalization and validation. -/
theorem C2_selected_identifiers_normalized :
    (∀ (vs : VolumeSystem) (pfx : String) (ids : List PyIdent),
        (∀ v ∈ ids, vs.hasVolume (normalizeVolumeIdentifier pfx v) = true) →
        _NormalizedVolumeIdentifiers vs (some ids) pfx =
          .ok (ids.map (normalizeVolumeIdentifier pfx))) ∧
    (∀ (vs : VolumeSystem) (pfx : String) (pre post : List PyIdent) (v : PyIdent),
        (∀ u ∈ pre, vs.hasVolume (normalizeVolumeIdentifier pfx u) = true) →
        vs.hasVolume (normalizeVolumeIdentifier pfx v) = false →
        _NormalizedVolumeIdentifiers vs (some (pre ++ v :: post)) pfx =
          .error (.scannerError
            ("Volume missing for identifier: " ++
              normalizeVolumeIdentifier pfx v ++ "."))) ∧
    (∀ (env : ScanEnvironment) (self : VolumeScanner) (node : ScanNode)
        (m : VolumeScannerMediator) (sel : Option (List PyIdent)),
        1 < (env.openTSKVolumeSystem node.path_spec).volume_identifiers.length →
        self.mediator = some m →
        m.GetPartitionIdentifiers (env.openTSKVolumeSystem node.path_spec)
            (env.openTSKVolumeSystem node.path_spec).volume_identifiers =
          .returns sel →
        _GetTSKPartitionIdentifiers env self (some node) =
          _NormalizedVolumeIdentifiers (env.openTSKVolumeSystem node.path_spec)
            sel "p") ∧
    (∀ (env : ScanEnvironment) (self : VolumeScanner) (node : ScanNode)
        (m : VolumeScannerMediator) (sel : Option (List PyIdent)),
        1 < (env.openAPFSVolumeSystem node.path_spec).volume_identifiers.length →
        self.mediator = some m →
        m.GetAPFSVolumeIdentifiers (env.openAPFSVolumeSystem node.path_spec)
            (env.openAPFSVolumeSystem node.path_spec).volume_identifiers =
          .returns sel →
        _GetAPFSVolumeIdentifiers env self (some node) =
          _NormalizedVolumeIdentifiers (env.openAPFSVolumeSystem node.path_spec)
            sel "apfs") ∧
    (∀ (env : ScanEnvironment) (self : VolumeScanner) (node : ScanNode)
        (m : VolumeScannerMediator) (sel : Option (List PyIdent)),
        (env.openVShadowVolumeSystem node.path_spec).volume_identifiers ≠ [] →
        self.mediator = some m →
        m.GetVSSStoreIdentifiers (env.openVShadowVolumeSystem node.path_spec)
            (env.openVShadowVolumeSystem node.path_spec).volume_identifiers =
          .returns sel →
        _GetVSSStoreIdentifiers env self (some node) =
          _NormalizedVolumeIdentifiers (env.openVShadowVolumeSystem node.path_spec)
            sel "vss") ∧
    (∀ (env : ScanEnvironment) (self : VolumeScanner) (node : ScanNode) (i : String),
        (env.openAPFSVolumeSystem node.path_spec).volume_identifiers = [i] →
        _GetAPFSVolumeIdentifiers env self (some node) =
          _NormalizedVolumeIdentifiers (env.openAPFSVolumeSystem node.path_spec)
            (some [PyIdent.strV i]) "apfs") ∧
    (∀ (env : ScanEnvironment) (self : VolumeScanner) (node : ScanNode) (i : String),
        (env.openTSKVolumeSystem node.path_spec).volume_identifiers = [i] →
        _GetTSKPartitionIdentifiers env self (some node) = .ok [i]) := by
  refine ⟨?_, ?_, ?_, ?_, ?_, ?_, ?_⟩
  · intro vs pfx ids h
    simp only [_NormalizedVolumeIdentifiers]
    induction ids with
    | nil => simp [normalizedVolumeIdentifiersList]
    | cons a rest ih =>
      have ha := h a (by simp)
      have ih2 := ih (fun u hu => h u (by simp [hu]))
      simp [normalizedVolumeIdentifiersList, ha, ih2]
  · intro vs pfx pre post v hpre hv
    simp only [_NormalizedVolumeIdentifiers]
    induction pre with
    | nil => simp [normalizedVolumeIdentifiersList, hv]
    | cons u pre2 ih =>
      have hu := hpre u (by simp)
      have ih2 := ih (fun w hw => hpre w (by simp [hw]))
      simp only [List.cons_append, normalizedVolumeIdentifiersList, hu, if_true]
      simp only [List.append_eq]
      rw [ih2]
  · intro env self node m sel hl hm hr
    have h1 := helperIsEmptyFalseOfNe _ (helperNeNilOfLtLength _ hl)
    have h2 := helperBeqOneFalseOfLt _ hl
    simp [_GetTSKPartitionIdentifiers, h1, h2, hm, hr]
  · intro env self node m sel hl hm hr
    have h1 := helperIsEmptyFalseOfNe _ (helperNeNilOfLtLength _ hl)
    simp [_GetAPFSVolumeIdentifiers, h1, hl, hm, hr]
  · intro env self node m sel hne hm hr
    have h1 := helperIsEmptyFalseOfNe _ hne
    simp [_GetVSSStoreIdentifiers, h1, hm, hr]
  · intro env self node i hi
    simp [_GetAPFSVolumeIdentifiers, hi]
  · intro env self node i hi
    simp [_GetTSKPartitionIdentifiers, hi]

/-- The TSK volume system used by the C2 witness: two partitions. -/
def vsC2W : VolumeSystem :=
  { volume_identifiers := ["p1", "p2"],
    hasVolume := fun s => s == "p1" || s == "p2" }

def envC2W : ScanEnvironment :=
  { baseEnv with openTSKVolumeSystem := fun _ => vsC2W }

/-- A mediator whose partition selection picks `p2` and the bare integer
`1`. -/
def mediatorC2W : VolumeScannerMediator :=
  { GetAPFSVolumeIdentifiers := fun _ _ => .returns (some [])
    GetPartitionIdentifiers := fun _ _ => .returns (some [.strV "p2", .intV 1])
    GetVSSStoreIdentifiers := fun _ _ => .returns (some [])
    UnlockEncryptedVolume := fun _ _ _ => false }

def selfC2W : VolumeScanner := { mediator := some mediatorC2W }

/-- An APFS volume system reporting the single bare numeral identifier `2`;
only the normalized form `apfs2` resolves to a volume. -/
def vsC2A : VolumeSystem :=
  { volume_identifiers := ["2"], hasVolume := fun s => s == "apfs2" }

def envC2A : ScanEnvironment :=
  { baseEnv with openAPFSVolumeSystem := fun _ => vsC2A }

/-- An APFS volume system reporting a single identifier that resolves to no
volume. -/
def vsC2B : VolumeSystem :=
  { volume_identifiers := ["apfs9"], hasVolume := fun _ => false }

def envC2B : ScanEnvironment :=
  { baseEnv with openAPFSVolumeSystem := fun _ => vsC2B }

/-- Witness for C2: the mediator-selected partitions are normalized; the
auto-selected single APFS identifier is normalized (a bare `2` comes back
as `apfs2`) and validated (an unresolvable `apfs9` raises the naming scan
error); the single auto-selected partition is returned raw. -/
theorem C2_selected_identifiers_normalized_witness :
    _NormalizedVolumeIdentifiers vsC2W (some [PyIdent.strV "p2", PyIdent.intV 1]) "p" =
      .ok ["p2", "p1"] ∧
    _GetTSKPartitionIdentifiers envC2W selfC2W (some nodeC2) =
      _NormalizedVolumeIdentifiers vsC2W (some [PyIdent.strV "p2", PyIdent.intV 1]) "p" ∧
    _NormalizedVolumeIdentifiers vsC2W (some [PyIdent.strV "p9"]) "p" =
      .error (.scannerError "Volume missing for identifier: p9.") ∧
    _GetAPFSVolumeIdentifiers envC2A noMediatorScanner (some nodeAny) =
      .ok ["apfs2"] ∧
    _GetAPFSVolumeIdentifiers envC2B noMediatorScanner (some nodeAny) =
      .error (.scannerError "Volume missing for identifier: apfs9.") ∧
    _GetTSKPartitionIdentifiers envC2 noMediatorScanner (some nodeC2) = .ok ["2"] := by
  refine ⟨?_, ?_, ?_, ?_, ?_, ?_⟩
  · have h := C2_selected_identifiers_normalized.1 vsC2W "p"
      [PyIdent.strV "p2", PyIdent.intV 1] (by decide)
    simpa using h
  · exact C2_selected_identifiers_normalized.2.2.1 envC2W selfC2W nodeC2
      mediatorC2W (some [PyIdent.strV "p2", PyIdent.intV 1]) (by decide) rfl rfl
  · have h := C2_selected_identifiers_normalized.2.1 vsC2W "p" [] []
      (PyIdent.strV "p9") (by simp) (by decide)
    simpa using h
  · exact (C2_selected_identifiers_normalized.2.2.2.2.2.1 envC2A
      noMediatorScanner nodeAny "2" rfl).trans rfl
  · exact (C2_selected_identifiers_normalized.2.2.2.2.2.1 envC2B
      noMediatorScanner nodeAny "apfs9" rfl).trans rfl
  · exact C2_selected_identifiers_normalized.2.2.2.2.2.2 envC2 noMediatorScanner
      nodeC2 "2" rfl

/-! ## C1 -/

/-- An APFS volume system with exactly one volume, `apfs1`. -/
def vsC1 : VolumeSystem :=
  { volume_identifiers := ["apfs1"], hasVolume := fun s => s == "apfs1" }

def envC1 : ScanEnvironment :=
  { baseEnv with openAPFSVolumeSystem := fun _ => vsC1 }

/-- The APFS-container volume-system root node of the C1 fixtures. -/
def nodeC1 : ScanNode :=
  .mk (.root .apfsContainer (some "/")) true false []

/-- C1 counterexample: an APFS container exposing exactly one volume
identifier is resolved successfully by `_GetAPFSVolumeIdentifiers` with no
mediator configured at all, so the mediator is not consulted even though
one identifier exists — contradicting the claim that APFS-container nodes
always consult the mediator whenever one or more identifiers exist. -/
theorem C1_counterexample :
    (envC1.openAPFSVolumeSystem nodeC1.path_spec).volume_identifiers.length = 1 ∧
    _GetAPFSVolumeIdentifiers envC1 noMediatorScanner (some nodeC1) = .ok ["apfs1"] :=
  ⟨rfl, rfl⟩

/-- C1 (amended): a partition-table node with exactly one identifier
auto-selects it, raw, with the same result for every scanner; an
APFS-container node with exactly one identifier likewise skips the
mediator, though it normalizes the identifier, and requires a mediator
only when two or more identifiers exist; a shadow-store node requires and
consults the mediator whenever one or more identifiers exist, even for
exactly one. -/
theorem C1_single_candidate_policy :
    (∀ (env : ScanEnvironment) (self : VolumeScanner) (node : ScanNode) (i : String),
        (env.openTSKVolumeSystem node.path_spec).volume_identifiers = [i] →
        _GetTSKPartitionIdentifiers env self (some node) = .ok [i]) ∧
    (∀ (env : ScanEnvironment) (self : VolumeScanner) (node : ScanNode) (i : String),
        (env.openAPFSVolumeSystem node.path_spec).volume_identifiers = [i] →
        _GetAPFSVolumeIdentifiers env self (some node) =
          _NormalizedVolumeIdentifiers (env.openAPFSVolumeSystem node.path_spec)
            (some [PyIdent.strV i]) "apfs") ∧
    (∀ (env : ScanEnvironment) (self : VolumeScanner) (node : ScanNode),
        1 < (env.openAPFSVolumeSystem node.path_spec).volume_identifiers.length →
        self.mediator = none →
        _GetAPFSVolumeIdentifiers env self (some node) = .error (.scannerError
          "Unable to proceed. APFS volumes found but no mediator to determine how they should be used.")) ∧
    (∀ (env : ScanEnvironment) (self : VolumeScanner) (node : ScanNode),
        (env.openVShadowVolumeSystem node.path_spec).volume_identifiers ≠ [] →
        self.mediator = none →
        _GetVSSStoreIdentifiers env self (some node) = .error (.scannerError
          "Unable to proceed. VSS stores found but no mediator to determine how they should be used.")) ∧
    (∀ (env : ScanEnvironment) (self : VolumeScanner) (node : ScanNode)
        (m : VolumeScannerMediator) (sel : Option (List PyIdent)) (i : String),
        (env.openVShadowVolumeSystem node.path_spec).volume_identifiers = [i] →
        self.mediator = some m →
        m.GetVSSStoreIdentifiers (env.openVShadowVolumeSystem node.path_spec)
            (env.openVShadowVolumeSystem node.path_spec).volume_identifiers =
          .returns sel →
        _GetVSSStoreIdentifiers env self (some node) =
          _NormalizedVolumeIdentifiers (env.openVShadowVolumeSystem node.path_spec)
            sel "vss") := by
  refine ⟨?_, ?_, ?_, ?_, ?_⟩
  · intro env self node i hi
    simp [_GetTSKPartitionIdentifiers, hi]
  · intro env self node i hi
    simp [_GetAPFSVolumeIdentifiers, hi]
  · intro env self node hl hm
    have h1 := helperIsEmptyFalseOfNe _ (helperNeNilOfLtLength _ hl)
    simp [_GetAPFSVolumeIdentifiers, h1, hl, hm]
  · intro env self node hne hm
    have h1 := helperIsEmptyFalseOfNe _ hne
    simp [_GetVSSStoreIdentifiers, h1, hm]
  · intro env self node m sel i hi hm hr
    simp [_GetVSSStoreIdentifiers, hi, hm] at hr ⊢
    simp [hr]

/-- A TSK volume system with exactly one partition, `p1`. -/
def vsC1T : VolumeSystem :=
  { volume_identifiers := ["p1"], hasVolume := fun s => s == "p1" }

/-- An APFS volume system with two volumes. -/
def vsC1A2 : VolumeSystem :=
  { volume_identifiers := ["apfs1", "apfs2"],
    hasVolume := fun s => s == "apfs1" || s == "apfs2" }

/-- A shadow-store volume system with exactly one store, `vss1`. -/
def vsC1V : VolumeSystem :=
  { volume_identifiers := ["vss1"], hasVolume := fun s => s == "vss1" }

def envC1W : ScanEnvironment :=
  { baseEnv with
    openTSKVolumeSystem := fun _ => vsC1T
    openAPFSVolumeSystem := fun _ => vsC1A2
    openVShadowVolumeSystem := fun _ => vsC1V }

/-- A mediator selecting the single shadow store `vss1`. -/
def mediatorC1 : VolumeScannerMediator :=
  { GetAPFSVolumeIdentifiers := fun _ _ => .returns (some [])
    GetPartitionIdentifiers := fun _ _ => .returns (some [])
    GetVSSStoreIdentifiers := fun _ _ => .returns (some [.strV "vss1"])
    UnlockEncryptedVolume := fun _ _ _ => false }

def selfC1 : VolumeScanner := { mediator := some mediatorC1 }

/-- Witness for C1 at concrete volume systems for each conjunct. -/
theorem C1_single_candidate_policy_witness :
    _GetTSKPartitionIdentifiers envC1W noMediatorScanner (some nodeAny) = .ok ["p1"] ∧
    _GetAPFSVolumeIdentifiers envC1 noMediatorScanner (some nodeC1) =
      _NormalizedVolumeIdentifiers vsC1 (some [PyIdent.strV "apfs1"]) "apfs" ∧
    _GetAPFSVolumeIdentifiers envC1W noMediatorScanner (some nodeAny) =
      .error (.scannerError
        "Unable to proceed. APFS volumes found but no mediator to determine how they should be used.") ∧
    _GetVSSStoreIdentifiers envC1W noMediatorScanner (some nodeAny) =
      .error (.scannerError
        "Unable to proceed. VSS stores found but no mediator to determine how they should be used.") ∧
    _GetVSSStoreIdentifiers envC1W selfC1 (some nodeAny) =
      _NormalizedVolumeIdentifiers vsC1V (some [PyIdent.strV "vss1"]) "vss" :=
  ⟨C1_single_candidate_policy.1 envC1W noMediatorScanner nodeAny "p1" rfl,
   C1_single_candidate_policy.2.1 envC1 noMediatorScanner nodeC1 "apfs1" rfl,
   C1_single_candidate_policy.2.2.1 envC1W noMediatorScanner nodeAny (by decide) rfl,
   C1_single_candidate_policy.2.2.2.1 envC1W noMediatorScanner nodeAny (by decide) rfl,
   C1_single_candidate_policy.2.2.2.2 envC1W selfC1 nodeAny mediatorC1
     (some [.strV "vss1"]) "vss1" rfl rfl rfl⟩

/-! ## C3 -/

/-- C3: for a partition-table scan node, zero identifiers yield an empty
result with no error and no mediator involvement; exactly one identifier
is returned without the mediator, for every scanner alike; with two or
more identifiers a missing mediator is a scan error, and a configured
mediator's selection determines the result. -/
theorem C3_partition_mediator_contract :
    (∀ (env : ScanEnvironment) (self : VolumeScanner) (node : ScanNode),
        (env.openTSKVolumeSystem node.path_spec).volume_identifiers = [] →
        _GetTSKPartitionIdentifiers env self (some node) = .ok []) ∧
    (∀ (env : ScanEnvironment) (self : VolumeScanner) (node : ScanNode) (i : String),
        (env.openTSKVolumeSystem node.path_spec).volume_identifiers = [i] →
        _GetTSKPartitionIdentifiers env self (some node) = .ok [i]) ∧
    (∀ (env : ScanEnvironment) (self : VolumeScanner) (node : ScanNode),
        1 < (env.openTSKVolumeSystem node.path_spec).volume_identifiers.length →
        self.mediator = none →
        _GetTSKPartitionIdentifiers env self (some node) = .error (.scannerError
          "Unable to proceed. Partitions found but no mediator to determine how they should be used.")) ∧
    (∀ (env : ScanEnvironment) (self : VolumeScanner) (node : ScanNode)
        (m : VolumeScannerMediator) (sel : Option (List PyIdent)),
        1 < (env.openTSKVolumeSystem node.path_spec).volume_identifiers.length →
        self.mediator = some m →
        m.GetPartitionIdentifiers (env.openTSKVolumeSystem node.path_spec)
            (env.openTSKVolumeSystem node.path_spec).volume_identifiers =
          .returns sel →
        _GetTSKPartitionIdentifiers env self (some node) =
          _NormalizedVolumeIdentifiers (env.openTSKVolumeSystem node.path_spec)
            sel "p") := by
  refine ⟨?_, ?_, ?_, ?_⟩
  · intro env self node hi
    simp [_GetTSKPartitionIdentifiers, hi]
  · intro env self node i hi
    simp [_GetTSKPartitionIdentifiers, hi]
  · intro env self node hl hm
    have h1 := helperIsEmptyFalseOfNe _ (helperNeNilOfLtLength _ hl)
    have h2 := helperBeqOneFalseOfLt _ hl
    simp [_GetTSKPartitionIdentifiers, h1, h2, hm]
  · intro env self node m sel hl hm hr
    have h1 := helperIsEmptyFalseOfNe _ (helperNeNilOfLtLength _ hl)
    have h2 := helperBeqOneFalseOfLt _ hl
    simp [_GetTSKPartitionIdentifiers, h1, h2, hm, hr]

/-- Witness for C3: empty, single and double partition tables. -/
theorem C3_partition_mediator_contract_witness :
    _GetTSKPartitionIdentifiers baseEnv noMediatorScanner (some nodeAny) = .ok [] ∧
    _GetTSKPartitionIdentifiers envC1W selfC1 (some nodeAny) = .ok ["p1"] ∧
    _GetTSKPartitionIdentifiers envC2W noMediatorScanner (some nodeAny) =
      .error (.scannerError
        "Unable to proceed. Partitions found but no mediator to determine how they should be used.") ∧
    _GetTSKPartitionIdentifiers envC2W selfC2W (some nodeAny) =
      _NormalizedVolumeIdentifiers vsC2W (some [PyIdent.strV "p2", PyIdent.intV 1]) "p" :=
  ⟨C3_partition_mediator_contract.1 baseEnv noMediatorScanner nodeAny rfl,
   C3_partition_mediator_contract.2.1 envC1W selfC1 nodeAny "p1" rfl,
   C3_partition_mediator_contract.2.2.1 envC2W noMediatorScanner nodeAny (by decide) rfl,
   C3_partition_mediator_contract.2.2.2 envC2W selfC2W nodeAny mediatorC2W
     (some [.strV "p2", .intV 1]) (by decide) rfl rfl⟩

/-! ## C8 -/

/-- C8: a `KeyboardInterrupt` raised while any of the three mediator
selection methods runs converts into the distinct user-abort error, which
is a different error constructor from the generic scan error. -/
theorem C8_interrupt_to_user_abort :
    (∀ (env : ScanEnvironment) (self : VolumeScanner) (node : ScanNode)
        (m : VolumeScannerMediator),
        1 < (env.openAPFSVolumeSystem node.path_spec).volume_identifiers.length →
        self.mediator = some m →
        m.GetAPFSVolumeIdentifiers (env.openAPFSVolumeSystem node.path_spec)
            (env.openAPFSVolumeSystem node.path_spec).volume_identifiers =
          .interrupt →
        _GetAPFSVolumeIdentifiers env self (some node) =
          .error (.userAbort "File system scan aborted.")) ∧
    (∀ (env : ScanEnvironment) (self : VolumeScanner) (node : ScanNode)
        (m : VolumeScannerMediator),
        1 < (env.openTSKVolumeSystem node.path_spec).volume_identifiers.length →
        self.mediator = some m →
        m.GetPartitionIdentifiers (env.openTSKVolumeSystem node.path_spec)
            (env.openTSKVolumeSystem node.path_spec).volume_identifiers =
          .interrupt →
        _GetTSKPartitionIdentifiers env self (some node) =
          .error (.userAbort "File system scan aborted.")) ∧
    (∀ (env : ScanEnvironment) (self : VolumeScanner) (node : ScanNode)
        (m : VolumeScannerMediator),
        (env.openVShadowVolumeSystem node.path_spec).volume_identifiers ≠ [] →
        self.mediator = some m →
        m.GetVSSStoreIdentifiers (env.openVShadowVolumeSystem node.path_spec)
            (env.openVShadowVolumeSystem node.path_spec).volume_identifiers =
          .interrupt →
        _GetVSSStoreIdentifiers env self (some node) =
          .error (.userAbort "File system scan aborted.")) ∧
    (∀ m1 m2 : String, PyError.userAbort m1 ≠ PyError.scannerError m2) := by
  refine ⟨?_, ?_, ?_, ?_⟩
  · intro env self node m hl hm hr
    have h1 := helperIsEmptyFalseOfNe _ (helperNeNilOfLtLength _ hl)
    simp [_GetAPFSVolumeIdentifiers, h1, hl, hm, hr]
  · intro env self node m hl hm hr
    have h1 := helperIsEmptyFalseOfNe _ (helperNeNilOfLtLength _ hl)
    have h2 := helperBeqOneFalseOfLt _ hl
    simp [_GetTSKPartitionIdentifiers, h1, h2, hm, hr]
  · intro env self node m hne hm hr
    have h1 := helperIsEmptyFalseOfNe _ hne
    simp [_GetVSSStoreIdentifiers, h1, hm, hr]
  · intro m1 m2 h
    cases h

/-- A mediator whose every selection is interrupted. -/
def mediatorInterrupt : VolumeScannerMediator :=
  { GetAPFSVolumeIdentifiers := fun _ _ => .interrupt
    GetPartitionIdentifiers := fun _ _ => .interrupt
    GetVSSStoreIdentifiers := fun _ _ => .interrupt
    UnlockEncryptedVolume := fun _ _ _ => false }

def selfInterrupt : VolumeScanner := { mediator := some mediatorInterrupt }

/-- Witness for C8 with an interrupting mediator over concrete volume
systems. -/
theorem C8_interrupt_to_user_abort_witness :
    _GetAPFSVolumeIdentifiers envC1W selfInterrupt (some nodeAny) =
      .error (.userAbort "File system scan aborted.") ∧
    _GetTSKPartitionIdentifiers envC2W selfInterrupt (some nodeAny) =
      .error (.userAbort "File system scan aborted.") ∧
    _GetVSSStoreIdentifiers envC1W selfInterrupt (some nodeAny) =
      .error (.userAbort "File system scan aborted.") ∧
    PyError.userAbort "File system scan aborted." ≠
      PyError.scannerError "File system scan aborted." :=
  ⟨C8_interrupt_to_user_abort.1 envC1W selfInterrupt nodeAny mediatorInterrupt
     (by decide) rfl rfl,
   C8_interrupt_to_user_abort.2.1 envC2W selfInterrupt nodeAny mediatorInterrupt
     (by decide) rfl rfl,
   C8_interrupt_to_user_abort.2.2.1 envC1W selfInterrupt nodeAny mediatorInterrupt
     (by decide) rfl rfl,
   C8_interrupt_to_user_abort.2.2.2 "File system scan aborted."
     "File system scan aborted."⟩

/-! ## C10 -/

/-- C10: when a consulted mediator selection method returns `None`, the
identifier-resolution functions pass it to normalization, which iterates
it and fails with an unclassified `TypeError` — an error that is neither
the scan error nor the user-abort of the module's taxonomy, so the
functions do not return normally. -/
theorem C10_none_selection_type_error :
    (∀ (env : ScanEnvironment) (self : VolumeScanner) (node : ScanNode)
        (m : VolumeScannerMediator),
        1 < (env.openAPFSVolumeSystem node.path_spec).volume_identifiers.length →
        self.mediator = some m →
        m.GetAPFSVolumeIdentifiers (env.openAPFSVolumeSystem node.path_spec)
            (env.openAPFSVolumeSystem node.path_spec).volume_identifiers =
          .returns none →
        _GetAPFSVolumeIdentifiers env self (some node) =
          .error (.typeError "NoneType object is not iterable")) ∧
    (∀ (env : ScanEnvironment) (self : VolumeScanner) (node : ScanNode)
        (m : VolumeScannerMediator),
        1 < (env.openTSKVolumeSystem node.path_spec).volume_identifiers.length →
        self.mediator = some m →
        m.GetPartitionIdentifiers (env.openTSKVolumeSystem node.path_spec)
            (env.openTSKVolumeSystem node.path_spec).volume_identifiers =
          .returns none →
        _GetTSKPartitionIdentifiers env self (some node) =
          .error (.typeError "NoneType object is not iterable")) ∧
    (∀ (env : ScanEnvironment) (self : VolumeScanner) (node : ScanNode)
        (m : VolumeScannerMediator),
        (env.openVShadowVolumeSystem node.path_spec).volume_identifiers ≠ [] →
        self.mediator = some m →
        m.GetVSSStoreIdentifiers (env.openVShadowVolumeSystem node.path_spec)
            (env.openVShadowVolumeSystem node.path_spec).volume_identifiers =
          .returns none →
        _GetVSSStoreIdentifiers env self (some node) =
          .error (.typeError "NoneType object is not iterable")) ∧
    (∀ m1 m2 : String, PyError.typeError m1 ≠ PyError.scannerError m2 ∧
        PyError.typeError m1 ≠ PyError.userAbort m2) := by
  refine ⟨?_, ?_, ?_, ?_⟩
  · intro env self node m hl hm hr
    have h1 := helperIsEmptyFalseOfNe _ (helperNeNilOfLtLength _ hl)
    simp [_GetAPFSVolumeIdentifiers, h1, hl, hm, hr, _NormalizedVolumeIdentifiers]
  · intro env self node m hl hm hr
    have h1 := helperIsEmptyFalseOfNe _ (helperNeNilOfLtLength _ hl)
    have h2 := helperBeqOneFalseOfLt _ hl
    simp [_GetTSKPartitionIdentifiers, h1, h2, hm, hr, _NormalizedVolumeIdentifiers]
  · intro env self node m hne hm hr
    have h1 := helperIsEmptyFalseOfNe _ hne
    simp [_GetVSSStoreIdentifiers, h1, hm, hr, _NormalizedVolumeIdentifiers]
  · intro m1 m2
    constructor
    · intro h
      cases h
    · intro h
      cases h

/-- A mediator whose every selection returns `None`. -/
def mediatorNoneSel : VolumeScannerMediator :=
  { GetAPFSVolumeIdentifiers := fun _ _ => .returns none
    GetPartitionIdentifiers := fun _ _ => .returns none
    GetVSSStoreIdentifiers := fun _ _ => .returns none
    UnlockEncryptedVolume := fun _ _ _ => false }

def selfNoneSel : VolumeScanner := { mediator := some mediatorNoneSel }

/-- Witness for C10 with a `None`-returning mediator. -/
theorem C10_none_selection_type_error_witness :
    _GetAPFSVolumeIdentifiers envC1W selfNoneSel (some nodeAny) =
      .error (.typeError "NoneType object is not iterable") ∧
    _GetTSKPartitionIdentifiers envC2W selfNoneSel (some nodeAny) =
      .error (.typeError "NoneType object is not iterable") ∧
    _GetVSSStoreIdentifiers envC1W selfNoneSel (some nodeAny) =
      .error (.typeError "NoneType object is not iterable") ∧
    (PyError.typeError "NoneType object is not iterable" ≠
        PyError.scannerError "x" ∧
      PyError.typeError "NoneType object is not iterable" ≠
        PyError.userAbort "x") :=
  ⟨C10_none_selection_type_error.1 envC1W selfNoneSel nodeAny mediatorNoneSel
     (by decide) rfl rfl,
   C10_none_selection_type_error.2.1 envC2W selfNoneSel nodeAny mediatorNoneSel
     (by decide) rfl rfl,
   C10_none_selection_type_error.2.2.1 envC1W selfNoneSel nodeAny mediatorNoneSel
     (by decide) rfl rfl,
   C10_none_selection_type_error.2.2.2 "NoneType object is not iterable" "x"⟩

/-! ## C9 -/

/-- C9: an unlocked node of shadow-snapshot type that is neither a volume
system root nor a file system gets a synthesized TSK child path
specification at location `/` with the node's path specification as
parent, appended as the contributed result without any further scan — the
result is the same for every environment, scanner and sub-node list. -/
theorem C9_vshadow_shortcut (env : ScanEnvironment) (self : VolumeScanner)
    (ctx : SourceScannerContext) (node : ScanNode)
    (hL : ctx.IsLockedScanNode node.path_spec = false)
    (hV : node.IsVolumeSystemRoot = false)
    (hF : node.IsFileSystem = false)
    (hT : node.type_indicator = TypeIndicator.vshadow) :
    _ScanVolume env self ctx (some node) =
      .ok [NewPathSpec TypeIndicator.tsk (some "/") (some node.path_spec)] := by
  conv_lhs => rw [_ScanVolume]
  simp [scanVolumeUnlockStep, hL, hV, hF, hT]

/-- The fixture node for the C9 witness: a shadow-snapshot container with
no deeper classification. -/
def nodeC9 : ScanNode := .mk (.root .vshadow (some "/")) false false []

def ctxC9 : SourceScannerContext :=
  { root_scan_node := nodeC9
    source_type := .storageMediaImage
    locked_path_specs := [] }

/-- Witness for C9 at a concrete shadow-snapshot node. -/
theorem C9_vshadow_shortcut_witness :
    _ScanVolume baseEnv noMediatorScanner ctxC9 (some nodeC9) =
      .ok [NewPathSpec TypeIndicator.tsk (some "/") (some nodeC9.path_spec)] :=
  C9_vshadow_shortcut baseEnv noMediatorScanner ctxC9 nodeC9 rfl rfl rfl rfl

/-! ## C5 -/

/-- C5: a locked node whose unlock attempt completes but leaves the node
locked contributes nothing: `_ScanVolume` returns the empty contribution,
and dropping such a node from a sub-node list leaves the scan of the list
unchanged, so the surrounding call keeps whatever the other branches
produced. -/
theorem C5_still_locked_contributes_nothing (env : ScanEnvironment)
    (self : VolumeScanner) (ctx ctx2 : SourceScannerContext) (node : ScanNode)
    (hL : ctx.IsLockedScanNode node.path_spec = true)
    (hE : _ScanEncryptedVolume env self ctx node = .ok ctx2)
    (hL2 : ctx2.IsLockedScanNode node.path_spec = true) :
    _ScanVolume env self ctx (some node) = .ok [] ∧
    ∀ rest, scanSubNodes env self ctx (node :: rest) =
      scanSubNodes env self ctx rest := by
  have hmain : _ScanVolume env self ctx (some node) = .ok [] := by
    conv_lhs => rw [_ScanVolume]
    simp [scanVolumeUnlockStep, hL, hE, hL2]
  refine ⟨hmain, ?_⟩
  intro rest
  conv_lhs => rw [scanSubNodes]
  simp only [hmain]
  cases h : scanSubNodes env self ctx rest <;> simp

/-- The path specification of the C5 locked volume. -/
def psLockedC5 : PathSpec := .root (.other "bde") (some "/")

def nodeLockedC5 : ScanNode := .mk psLockedC5 false false []

/-- A file-system sibling of the locked node. -/
def nodeFsC5 : ScanNode := .mk (.root (.other "ntfs") (some "/")) false true []

def envC5 : ScanEnvironment :=
  { baseEnv with GetCredentials := fun _ => ["password"] }

/-- A mediator whose unlock attempt reports failure. -/
def mediatorC5 : VolumeScannerMediator :=
  { GetAPFSVolumeIdentifiers := fun _ _ => .returns (some [])
    GetPartitionIdentifiers := fun _ _ => .returns (some [])
    GetVSSStoreIdentifiers := fun _ _ => .returns (some [])
    UnlockEncryptedVolume := fun _ _ _ => false }

def selfC5 : VolumeScanner := { mediator := some mediatorC5 }

def ctxC5 : SourceScannerContext :=
  { root_scan_node := nodeLockedC5
    source_type := .storageMediaImage
    locked_path_specs := [psLockedC5] }

/-- Witness for C5: the still-locked node contributes nothing and its
file-system sibling's contribution is untouched. -/
theorem C5_still_locked_contributes_nothing_witness :
    _ScanVolume envC5 selfC5 ctxC5 (some nodeLockedC5) = .ok [] ∧
    scanSubNodes envC5 selfC5 ctxC5 [nodeLockedC5, nodeFsC5] =
      scanSubNodes envC5 selfC5 ctxC5 [nodeFsC5] :=
  ⟨(C5_still_locked_contributes_nothing envC5 selfC5 ctxC5 ctxC5 nodeLockedC5
      rfl rfl rfl).1,
   (C5_still_locked_contributes_nothing envC5 selfC5 ctxC5 ctxC5 nodeLockedC5
      rfl rfl rfl).2 [nodeFsC5]⟩

/-! ## C6 -/

/-- An unlocked file-system leaf contributes exactly its own path
specification. -/
theorem helperScanVolumeFsLeaf (env : ScanEnvironment) (self : VolumeScanner)
    (ctx : SourceScannerContext) (n : ScanNode)
    (hL : ctx.IsLockedScanNode n.path_spec = false)
    (hV : n.IsVolumeSystemRoot = false)
    (hF : n.IsFileSystem = true) :
    _ScanVolume env self ctx (some n) = .ok [n.path_spec] := by
  conv_lhs => rw [_ScanVolume]
  simp [scanVolumeUnlockStep, hL, hV, hF, _ScanFileSystem]

/-- The identifier loop over file-system leaf children found at `/` plus
identifier produces the children's path specifications in the identifier
order. -/
theorem helperRootLoopFsLeaves (env : ScanEnvironment) (self : VolumeScanner)
    (ctx : SourceScannerContext) (parent : ScanNode)
    (children : String → ScanNode) :
    ∀ l : List String,
      (∀ id ∈ l, parent.GetSubNodeByLocation ("/" ++ id) = some (children id)) →
      (∀ id ∈ l, ctx.IsLockedScanNode (children id).path_spec = false ∧
          (children id).IsVolumeSystemRoot = false ∧
          (children id).IsFileSystem = true) →
      scanVolumeSystemRootLoop env self ctx parent l =
        .ok (l.map (fun id => (children id).path_spec)) := by
  intro l
  induction l with
  | nil =>
    intro _ _
    rw [scanVolumeSystemRootLoop]
    simp
  | cons a rest ih =>
    intro h1 h2
    obtain ⟨hL, hV, hF⟩ := h2 a (by simp)
    have hsub := h1 a (by simp)
    have hleaf := helperScanVolumeFsLeaf env self ctx (children a) hL hV hF
    have hrec := ih (fun id hid => h1 id (by simp [hid]))
      (fun id hid => h2 id (by simp [hid]))
    conv_lhs => rw [scanVolumeSystemRootLoop]
    split
    · next heq =>
      rw [hsub] at heq
      cases heq
    · next sub heq =>
      rw [hsub] at heq
      injection heq with heq2
      subst heq2
      simp [hleaf, hrec]

/-- C6: for a shadow-snapshot volume-system root, the selected and
normalized store identifiers are reversed before the per-identifier
recursion, so with file-system leaf children the produced base path
specifications follow the reversed identifier order — the identifier
enumerated last (the most recent snapshot) is processed first. -/
theorem C6_vss_identifiers_reversed (env : ScanEnvironment)
    (self : VolumeScanner) (ctx : SourceScannerContext) (node : ScanNode)
    (ids : List String) (children : String → ScanNode)
    (hT : node.type_indicator = TypeIndicator.vshadow)
    (hG : _GetVSSStoreIdentifiers env self (some node) = .ok ids)
    (hC : ∀ id ∈ ids, node.GetSubNodeByLocation ("/" ++ id) = some (children id))
    (hFlags : ∀ id ∈ ids,
        ctx.IsLockedScanNode (children id).path_spec = false ∧
        (children id).IsVolumeSystemRoot = false ∧
        (children id).IsFileSystem = true) :
    _ScanVolumeSystemRoot env self ctx node =
      .ok (ids.reverse.map (fun id => (children id).path_spec)) := by
  conv_lhs => rw [_ScanVolumeSystemRoot]
  have hloop := helperRootLoopFsLeaves env self ctx node children ids.reverse
    (fun id hid => hC id (List.mem_reverse.mp hid))
    (fun id hid => hFlags id (List.mem_reverse.mp hid))
  simp [hT, hG, hloop]

/-- The shadow-store root path specification of the C6 witness. -/
def psVssRootC6 : PathSpec := .root .vshadow (some "/")

/-- The file-system leaf child mounted under each store of the C6
witness. -/
def childrenC6 : String → ScanNode := fun id =>
  .mk (.child (.other "ntfs") (some ("/" ++ id)) psVssRootC6) false true []

def nodeC6 : ScanNode :=
  .mk psVssRootC6 true false [childrenC6 "vss1", childrenC6 "vss2"]

def vsC6 : VolumeSystem :=
  { volume_identifiers := ["vss1", "vss2"],
    hasVolume := fun s => s == "vss1" || s == "vss2" }

/-- A mediator selecting both stores in discovery order. -/
def mediatorC6 : VolumeScannerMediator :=
  { GetAPFSVolumeIdentifiers := fun _ _ => .returns (some [])
    GetPartitionIdentifiers := fun _ _ => .returns (some [])
    GetVSSStoreIdentifiers := fun _ _ => .returns (some [.strV "vss1", .strV "vss2"])
    UnlockEncryptedVolume := fun _ _ _ => false }

def selfC6 : VolumeScanner := { mediator := some mediatorC6 }

def envC6 : ScanEnvironment :=
  { baseEnv with openVShadowVolumeSystem := fun _ => vsC6 }

def ctxC6 : SourceScannerContext :=
  { root_scan_node := nodeC6
    source_type := .storageMediaImage
    locked_path_specs := [] }

/-- Witness for C6: two stores enumerated as `vss1, vss2` are processed as
`vss2, vss1`. -/
theorem C6_vss_identifiers_reversed_witness :
    _ScanVolumeSystemRoot envC6 selfC6 ctxC6 nodeC6 =
      .ok (["vss1", "vss2"].reverse.map (fun id => (childrenC6 id).path_spec)) :=
  C6_vss_identifiers_reversed envC6 selfC6 ctxC6 nodeC6 ["vss1", "vss2"]
    childrenC6 rfl rfl
    (by
      intro id hid
      simp only [List.mem_cons, List.not_mem_nil, or_false] at hid
      rcases hid with h | h <;> subst h <;> rfl)
    (by
      intro id hid
      simp only [List.mem_cons, List.not_mem_nil, or_false] at hid
      rcases hid with h | h <;> subst h <;> exact ⟨rfl, rfl, rfl⟩)

/-! ## C4 -/

/-- C4: for a validated source path whose scan classifies the source as
neither a storage-media device nor a storage-media image, the full
`GetBasePathSpecs` call returns exactly the root scan node's path
specification, for every environment and scanner alike — in particular no
volume system and no mediator can influence the result. -/
theorem C4_plain_source_returns_root_spec (env : ScanEnvironment)
    (self : VolumeScanner) (source_path : String) (ctx : SourceScannerContext)
    (h1 : source_path ≠ "")
    (h2 : pyStartsWith source_path "\\\\.\\" = true ∨
        env.pathExists source_path = true)
    (h3 : env.openAndScan source_path = .ok ctx)
    (h4 : ctx.source_type ≠ SourceType.storageMediaDevice)
    (h5 : ctx.source_type ≠ SourceType.storageMediaImage) :
    GetBasePathSpecs env self source_path =
      .ok [ctx.GetRootScanNode.path_spec] := by
  have hcond : (!pyStartsWith source_path "\\\\.\\" &&
      !env.pathExists source_path) = false := by
    rcases h2 with h | h <;> simp [h]
  simp [GetBasePathSpecs, h1, hcond, h3, h4, h5]

/-- The root node of the C4 witness: a plain regular file. -/
def nodeFileC4 : ScanNode :=
  .mk (.root .os (some "/tmp/source.txt")) false true []

def ctxC4 : SourceScannerContext :=
  { root_scan_node := nodeFileC4
    source_type := .file
    locked_path_specs := [] }

def envC4 : ScanEnvironment :=
  { baseEnv with openAndScan := fun _ => .ok ctxC4 }

/-- Witness for C4 on a plain-file source. -/
theorem C4_plain_source_returns_root_spec_witness :
    GetBasePathSpecs envC4 noMediatorScanner "/tmp/source.txt" =
      .ok [ctxC4.GetRootScanNode.path_spec] :=
  C4_plain_source_returns_root_spec envC4 noMediatorScanner "/tmp/source.txt"
    ctxC4 (by decide) (Or.inr rfl) rfl (by decide) (by decide)

end DFVFS
